import Mathlib

/-!
Verification development for the mercury-clone court-case tracker.

This file gives a shallow embedding of the multi-source case-resolution and
change-detection pipeline:

* the Supreme Court case-type resolution (`resolveCaseTypeCode` and its
  tables, from `src/lib/courts/kleopatra-api.ts` second unit, the sc-scraper);
* the aggregator-API normalizer (`normalizeCase`) and the status-field
  selection of the two HTML parsers (`parseResultsHtml`,
  `parseEcourtsCaseHtml`), with the regex extraction layer abstracted as a
  label-to-text function;
* the two change detectors: the inline detection of the cron route
  (`runCaseUpdates`) and `detectChanges` of `scripts/update-cases.ts`;
* the per-case pipeline steps of both drivers, with provider resolution
  results supplied as oracles (network, time budget and the database are
  outside the embedding);
* the upcoming-hearing sweep of both drivers, including the alert-log
  dedup query of the script;
* the CAPTCHA retry loop (`fetchCaseStatusWithRetry`), with per-attempt
  outcomes supplied by an oracle;
* the provider fallback of `CourtService.getCaseStatus`.

JavaScript string truthiness (null, undefined and "" are falsy) is modelled
on `Option String`; `a || b` becomes `jsOr`.
-/

namespace Mercury

/-! ## JavaScript semantics helpers -/

/-- JS truthiness of a nullable string: null/undefined and "" are falsy. -/
def truthy : Option String → Bool
  | none => false
  | some s => s ≠ ""

/-- JS `a || b` on nullable strings. -/
def jsOr (a b : Option String) : Option String :=
  if truthy a then a else b

/-- JS `a || b` where both sides are plain strings ("" is the only falsy value). -/
def jsOrS (a b : String) : String :=
  if a ≠ "" then a else b

/-- JS `a || b` on nullable object-typed values: every object is truthy. -/
def jsOrObj {α : Type} (a b : Option α) : Option α :=
  if a.isSome then a else b

/-- Lookup in a JS object modelled as an association list (string keys). -/
def lookupStr (m : List (String × String)) (k : String) : Option String :=
  (m.find? (fun p => p.1 == k)).map (fun p => p.2)

/-- JS object key assignment: overwrite an existing key or append a new one. -/
def upsert (m : List (String × String)) (k v : String) : List (String × String) :=
  if m.any (fun p => p.1 == k) then
    m.map (fun p => if p.1 == k then (k, v) else p)
  else
    m ++ [(k, v)]

/-- JS `toUpperCase` (character-wise uppercasing). -/
def jsToUpper (s : String) : String :=
  String.mk (s.toList.map Char.toUpper)

/-- The regex replacement of one character by another everywhere (`/_/g` → " "). -/
def jsReplaceChar (s : String) (a b : Char) : String :=
  String.mk (s.toList.map (fun c => if c == a then b else c))

/-- JS `trim`: drop leading and trailing whitespace. -/
def jsTrim (s : String) : String :=
  String.mk (((s.toList.dropWhile Char.isWhitespace).reverse.dropWhile Char.isWhitespace).reverse)

/-- The regex replacement `/[.()\s]/g` → "": drop dots, parentheses and whitespace. -/
def stripPunctSpace (s : String) : String :=
  String.mk (s.toList.filter (fun c => !(c == '.' || c == '(' || c == ')' || c.isWhitespace)))

/-- Substring containment test (SQL `LIKE percent-pat-percent`, case sensitive). -/
def strContainsSub (s pat : String) : Bool :=
  (List.range (s.toList.length + 1)).any
    (fun i => (s.toList.drop i).take pat.toList.length == pat.toList)

/-- Lexicographic strictly-less on character lists (codepoint order). -/
def charListLt : List Char → List Char → Bool
  | _, [] => false
  | [], _ :: _ => true
  | a :: as, b :: bs =>
    if a.toNat < b.toNat then true
    else if b.toNat < a.toNat then false
    else charListLt as bs

/-- String `a ≥ b` in lexicographic order (the `gte` filter of the store). -/
def strGE (a b : String) : Bool :=
  !(charListLt a.toList b.toList)

/-! ## Supreme Court case-type resolution (sc-scraper) -/

/-- SC case_type codes mapped to their labels (`SC_CASE_TYPE_MAP`). -/
def SC_CASE_TYPE_MAP : List (String × String) :=
  [("1", "SLP(C)"), ("2", "SLP(Crl)"), ("3", "C.A."), ("4", "Crl.A."),
   ("5", "W.P.(C)"), ("6", "W.P.(Crl.)"), ("7", "T.P.(C)"), ("8", "T.P.(Crl.)")]

/-- Reverse map label → code, built exactly as in the source: for each entry,
assign under the uppercased label and under the punctuation-stripped
uppercased label. -/
def SC_CASE_TYPE_REVERSE : List (String × String) :=
  SC_CASE_TYPE_MAP.foldl
    (fun acc p => upsert (upsert acc (jsToUpper p.2) p.1) (jsToUpper (stripPunctSpace p.2)) p.1)
    []

/-- The inline `aliases` table of `resolveCaseTypeCode`. -/
def SC_ALIASES : List (String × String) :=
  [("SLP", "1"), ("SLPC", "1"), ("SLPCRL", "2"), ("CA", "3"), ("CRLA", "4"),
   ("WPC", "5"), ("WPCRL", "6"), ("TPC", "7"), ("TPCRL", "8"),
   ("CIVIL APPEAL", "3"), ("CRIMINAL APPEAL", "4"), ("WRIT PETITION", "5"),
   ("WRIT PETITION CIVIL", "5"), ("WRIT PETITION CRIMINAL", "6"),
   ("TRANSFER PETITION", "7"), ("TRANSFER PETITION CIVIL", "7"),
   ("TRANSFER PETITION CRIMINAL", "8")]

/-- `resolveCaseTypeCode(caseType, caseTypeCode?)`: exact code, exact label key,
uppercased-trimmed reverse lookup, stripped reverse lookup, stripped alias
lookup, and finally the documented default code "5". -/
def resolveCaseTypeCode (caseType : String) (caseTypeCode : Option String) : String :=
  if truthy caseTypeCode && (lookupStr SC_CASE_TYPE_MAP (caseTypeCode.getD "")).isSome then
    caseTypeCode.getD ""
  else if (lookupStr SC_CASE_TYPE_MAP caseType).isSome then
    caseType
  else
    let normalized := jsTrim (jsToUpper caseType)
    match lookupStr SC_CASE_TYPE_REVERSE normalized with
    | some code => code
    | none =>
      let stripped := stripPunctSpace normalized
      match lookupStr SC_CASE_TYPE_REVERSE stripped with
      | some code => code
      | none =>
        match lookupStr SC_ALIASES stripped with
        | some code => code
        | none => "5"

/-! ## Canonical data model (types.ts) -/

/-- A hearing-history entry of the canonical snapshot. -/
structure HearingEntry where
  date : String
  purpose : String
  courtNumber : Option String
  judge : Option String
  orderDetails : Option String
deriving DecidableEq, Repr

/-- An order entry of the canonical snapshot. -/
structure OrderEntry where
  date : String
  orderType : String
  summary : Option String
  pdfUrl : Option String
deriving DecidableEq, Repr

/-- The canonical case snapshot (`CaseStatus` of types.ts). The raw payload
blob is kept as an uninterpreted string. -/
structure CaseStatus where
  caseTitle : String
  currentStatus : String
  petitioner : String
  respondent : String
  petitionerAdvocate : Option String
  respondentAdvocate : Option String
  judges : Option String
  filingDate : Option String
  registrationDate : Option String
  decisionDate : Option String
  nextHearingDate : Option String
  lastOrderDate : Option String
  lastOrderSummary : Option String
  hearingHistory : List HearingEntry
  orders : List OrderEntry
  acts : Option (List String)
  rawData : Option String
deriving DecidableEq, Repr

/-- Court category codes. -/
inductive CourtType
  | SC
  | HC
  | DC
  | NCLT
  | CF
deriving DecidableEq, Repr

/-- The addressable key a caller supplies (`CaseIdentifier` of types.ts). -/
structure CaseIdentifier where
  courtType : CourtType
  caseType : String
  caseTypeCode : Option String
  caseNumber : String
  caseYear : String
  cnrNumber : Option String
  courtCode : Option String
  stateCode : Option String
  districtCode : Option String
deriving DecidableEq, Repr

/-! ## Aggregator-API normalizer (`normalizeCase` of kleopatra-api.ts) -/

/-- A raw hearing-history entry of the aggregator API response. -/
structure RawHearing where
  hearing_date : Option String
  date : Option String
  purpose : Option String
  business : Option String
  court_no : Option String
  judge : Option String
  order_details : Option String
deriving DecidableEq, Repr

/-- A raw order entry of the aggregator API response. -/
structure RawOrder where
  order_date : Option String
  date : Option String
  order_type : Option String
  order_details : Option String
  summary : Option String
  pdf_url : Option String
  download_link : Option String
deriving DecidableEq, Repr

/-- The raw aggregator API response fields read by `normalizeCase`. -/
structure RawCase where
  case_title : Option String
  status : Option String
  case_status : Option String
  petitioner : Option String
  respondent : Option String
  petitioner_advocate : Option String
  respondent_advocate : Option String
  judge : Option String
  bench : Option String
  filing_date : Option String
  registration_date : Option String
  decision_date : Option String
  next_hearing_date : Option String
  next_date : Option String
  last_order_date : Option String
  last_order : Option String
  history : Option (List RawHearing)
  orders : Option (List RawOrder)
  acts : Option (List String)
deriving DecidableEq, Repr

/-- `normalizeCase(raw)`: field-by-field translation of the aggregator
response into the canonical snapshot. The raw payload is retained through
an injective printing of the input. -/
def normalizeCase (r : RawCase) : CaseStatus :=
  { caseTitle := jsOrS (r.case_title.getD "")
      (r.petitioner.getD "" ++ " vs " ++ r.respondent.getD "")
    currentStatus := jsOrS (r.status.getD "") (jsOrS (r.case_status.getD "") "Unknown")
    petitioner := r.petitioner.getD ""
    respondent := r.respondent.getD ""
    petitionerAdvocate := r.petitioner_advocate
    respondentAdvocate := r.respondent_advocate
    judges := jsOr r.judge r.bench
    filingDate := r.filing_date
    registrationDate := r.registration_date
    decisionDate := r.decision_date
    nextHearingDate := jsOr r.next_hearing_date r.next_date
    lastOrderDate := r.last_order_date
    lastOrderSummary := r.last_order
    hearingHistory := (r.history.getD []).map (fun h =>
      { date := (jsOr h.hearing_date h.date).getD ""
        purpose := (jsOr h.purpose h.business).getD ""
        courtNumber := h.court_no
        judge := h.judge
        orderDetails := h.order_details })
    orders := (r.orders.getD []).map (fun o =>
      { date := (jsOr o.order_date o.date).getD ""
        orderType := (jsOr o.order_type (some "Order")).getD ""
        summary := jsOr o.order_details o.summary
        pdfUrl := jsOr o.pdf_url o.download_link })
    acts := r.acts
    rawData := some (reprStr r) }

/-! ## Status-field selection of the HTML parsers

The regex extraction layer (`extractField`) is abstracted as a function from
field label to extracted text, returning "" when no pattern matched, exactly
its contract in the source; `allCells` is the list of stripped td-cell texts. -/

/-- The current-status selection of `parseResultsHtml` (SC scraper): labelled
extraction in priority order, then table cell 5, then the literal "Pending". -/
def scParsedCurrentStatus (ef : String → String) (allCells : List String) : String :=
  jsOrS (ef "Status")
    (jsOrS (ef "Case Status")
      (jsOrS (ef "Disposal Nature")
        (jsOrS (allCells.getD 5 "") "Pending")))

/-- The current-status selection of `parseEcourtsCaseHtml` (eCourts scraper). -/
def ecourtsParsedCurrentStatus (ef : String → String) : String :=
  jsOrS (ef "Case Status")
    (jsOrS (ef "Status")
      (jsOrS (ef "Stage of Case") "Pending"))

/-! ## Change detection

Two detectors exist in the repository: the inline detection of the cron
route (`runCaseUpdates`) working on a canonical `CaseStatus`, and
`detectChanges` of `scripts/update-cases.ts` working on the raw API record. -/

/-- A persisted tracked-case row: the stored snapshot fields both drivers
read and write back. -/
structure CaseRow where
  current_status : Option String
  next_hearing_date : Option String
  last_order_date : Option String
  last_order_summary : Option String
  petitioner : Option String
  respondent : Option String
  judges : Option String
  raw_data : Option String
  last_checked_at : Option String
  last_changed_at : Option String
deriving DecidableEq, Repr

/-- A change entry of the cron route (type, oldValue, newValue). -/
structure CronChange where
  type : String
  oldValue : Option String
  newValue : String
deriving DecidableEq, Repr

/-- A change entry of the script (`ChangeDetected`). -/
structure ChangeDetected where
  field : String
  updateType : String
  oldValue : Option String
  newValue : String
deriving DecidableEq, Repr

/-- The raw API record consumed by the script (`fresh` in update-cases.ts). -/
structure FreshRecord where
  status : Option String
  case_status : Option String
  next_hearing_date : Option String
  next_date : Option String
  last_order_date : Option String
  last_order : Option String
  judge : Option String
  bench : Option String
  petitioner : Option String
  respondent : Option String
  error : Option String
deriving DecidableEq, Repr

/-- The inline change detection of the cron route (`runCaseUpdates`,
status, next-hearing and new-order rules; the cron route has no judge rule).
The status rule carries the "Unknown" sentinel suppression. -/
def detectChangesCron (row : CaseRow) (ns : CaseStatus) : List CronChange :=
  let changes : List CronChange := []
  let changes :=
    if ns.currentStatus != "" && some ns.currentStatus != row.current_status
        && row.current_status != some "Unknown" then
      changes ++ [{ type := "status_change", oldValue := row.current_status,
                    newValue := ns.currentStatus }]
    else changes
  let changes :=
    if truthy ns.nextHearingDate && ns.nextHearingDate != row.next_hearing_date then
      changes ++ [{ type := "hearing_date_change", oldValue := row.next_hearing_date,
                    newValue := ns.nextHearingDate.getD "" }]
    else changes
  let changes :=
    if truthy ns.lastOrderDate && ns.lastOrderDate != row.last_order_date then
      changes ++ [{ type := "new_order", oldValue := row.last_order_date,
                    newValue := ns.lastOrderDate.getD "" ++
                      (if truthy ns.lastOrderSummary then
                        " - " ++ ns.lastOrderSummary.getD ""
                      else "") }]
    else changes
  changes

/-- `detectChanges(tracked, fresh)` of scripts/update-cases.ts: status,
hearing, new-order and judge rules; no "Unknown" sentinel check. -/
def detectChanges (tracked : CaseRow) (fresh : FreshRecord) : List ChangeDetected :=
  let changes : List ChangeDetected := []
  let newStatus := jsOr fresh.status fresh.case_status
  let changes :=
    if truthy newStatus && newStatus != tracked.current_status then
      changes ++ [{ field := "current_status", updateType := "status_change",
                    oldValue := tracked.current_status, newValue := newStatus.getD "" }]
    else changes
  let newHearing := jsOr fresh.next_hearing_date fresh.next_date
  let changes :=
    if truthy newHearing && newHearing != tracked.next_hearing_date then
      changes ++ [{ field := "next_hearing_date", updateType := "hearing_date_change",
                    oldValue := tracked.next_hearing_date, newValue := newHearing.getD "" }]
    else changes
  let newOrderDate := fresh.last_order_date
  let changes :=
    if truthy newOrderDate && newOrderDate != tracked.last_order_date then
      changes ++ [{ field := "last_order_date", updateType := "new_order",
                    oldValue := tracked.last_order_date,
                    newValue := "New order on " ++ newOrderDate.getD "" ++ ": " ++
                      fresh.last_order.getD "" }]
    else changes
  let newJudge := jsOr fresh.judge fresh.bench
  let changes :=
    if truthy newJudge && newJudge != tracked.judges then
      changes ++ [{ field := "judges", updateType := "judge_change",
                    oldValue := tracked.judges, newValue := newJudge.getD "" }]
    else changes
  changes

/-- The events of one kind among the cron detector output. -/
def cronEventsOfType (t : String) (l : List CronChange) : List CronChange :=
  l.filter (fun c => c.type == t)

/-- The events of one kind among the script detector output. -/
def scriptEventsOfType (t : String) (l : List ChangeDetected) : List ChangeDetected :=
  l.filter (fun c => c.updateType == t)

/-! ## Per-case pipeline steps

The network fetch and the 55-second time budget are outside the embedding:
each case comes paired with the resolution outcome the providers produced
for it, and the batch drivers below fold the per-case handling over that
list. `now` stands for the timestamp the drivers write. -/

/-- Result counters of the cron route. -/
structure CronCounters where
  casesChecked : Nat
  updatesFound : Nat
  errorCount : Nat
deriving DecidableEq, Repr

/-- The cron route case-record update (non-null branch): every stored field
falls back to its previous value when the fresh one is falsy, last-checked is
refreshed, and last-changed only when at least one change fired. -/
def applyCronUpdate (row : CaseRow) (ns : CaseStatus) (changes : List CronChange)
    (now : String) : CaseRow :=
  { row with
    current_status := jsOr (some ns.currentStatus) row.current_status
    next_hearing_date := jsOr ns.nextHearingDate row.next_hearing_date
    last_order_date := jsOr ns.lastOrderDate row.last_order_date
    last_order_summary := jsOr ns.lastOrderSummary row.last_order_summary
    petitioner := jsOr (some ns.petitioner) row.petitioner
    respondent := jsOr (some ns.respondent) row.respondent
    judges := jsOr ns.judges row.judges
    raw_data := jsOrObj ns.rawData row.raw_data
    last_checked_at := some now
    last_changed_at := if changes.length > 0 then some now else row.last_changed_at }

/-- One case of the cron route: on a null resolution only the last-checked
timestamp is written; otherwise changes are detected and the row updated. -/
def cronProcessCase (row : CaseRow) (result : Option CaseStatus) (now : String) :
    CaseRow × List CronChange :=
  match result with
  | none => ({ row with last_checked_at := some now }, [])
  | some ns =>
    let changes := detectChangesCron row ns
    (applyCronUpdate row ns changes now, changes)

/-- The cron batch loop: sequential over the supplied cases, accumulating
the per-case row updates, the change lists and the run counters. A null
resolution still counts toward `casesChecked` and leaves `errorCount`
untouched. -/
def runCronBatch : List (CaseRow × Option CaseStatus) → String →
    List (CaseRow × List CronChange) × CronCounters
  | [], _ => ([], { casesChecked := 0, updatesFound := 0, errorCount := 0 })
  | item :: rest, now =>
    let step := cronProcessCase item.1 item.2 now
    let tail := runCronBatch rest now
    (step :: tail.1,
     { casesChecked := tail.2.casesChecked + 1,
       updatesFound := tail.2.updatesFound + step.2.length,
       errorCount := tail.2.errorCount })

/-- Outcome of the script fetch for one case: a parsed record, a null
response, or a thrown transport error (caught by the per-case try block). -/
inductive ScriptFetchOutcome
  | ok (f : FreshRecord)
  | nullResp
  | thrown
deriving DecidableEq, Repr

/-- Counter deltas of one script iteration. -/
structure ScriptDelta where
  updated : Nat
  errors : Nat
deriving DecidableEq, Repr

/-- The script case-record update, executed only when changes were detected:
fresh values with fallback to the stored ones, raw payload replaced, both
timestamps refreshed. -/
def applyScriptUpdate (row : CaseRow) (f : FreshRecord) (now : String) : CaseRow :=
  { row with
    current_status := jsOr f.status (jsOr f.case_status row.current_status)
    next_hearing_date := jsOr f.next_hearing_date (jsOr f.next_date row.next_hearing_date)
    last_order_date := jsOr f.last_order_date row.last_order_date
    last_order_summary := jsOr f.last_order row.last_order_summary
    petitioner := jsOr f.petitioner row.petitioner
    respondent := jsOr f.respondent row.respondent
    judges := jsOr f.judge (jsOr f.bench row.judges)
    raw_data := some (reprStr f)
    last_checked_at := some now
    last_changed_at := some now }

/-- One case of the script loop: a null or error-marked response (and a
thrown fetch) increments the error counter and leaves the stored row
untouched; otherwise changes are detected and the row updated, with only the
last-checked timestamp written when nothing changed. -/
def scriptProcessCase (row : CaseRow) (result : ScriptFetchOutcome) (now : String) :
    CaseRow × List ChangeDetected × ScriptDelta :=
  match result with
  | .nullResp => (row, [], { updated := 0, errors := 1 })
  | .thrown => (row, [], { updated := 0, errors := 1 })
  | .ok f =>
    if truthy f.error then
      (row, [], { updated := 0, errors := 1 })
    else
      let changes := detectChanges row f
      if changes.length > 0 then
        (applyScriptUpdate row f now, changes, { updated := 1, errors := 0 })
      else
        ({ row with last_checked_at := some now }, [], { updated := 0, errors := 0 })

/-- The script batch loop. -/
def runScriptBatch : List (CaseRow × ScriptFetchOutcome) → String →
    List (CaseRow × List ChangeDetected) × ScriptDelta
  | [], _ => ([], { updated := 0, errors := 0 })
  | item :: rest, now =>
    let step := scriptProcessCase item.1 item.2 now
    let tail := runScriptBatch rest now
    ((step.1, step.2.1) :: tail.1,
     { updated := tail.2.updated + step.2.2.updated,
       errors := tail.2.errors + step.2.2.errors })

/-! ## Upcoming-hearing sweep -/

/-- A notification-preferences profile row. -/
structure Profile where
  email : Option String
  telegram_chat_id : Option String
  email_alerts : Bool
  telegram_alerts : Bool
deriving DecidableEq, Repr

/-- A persisted alert-log row (the fields the dedup query reads). -/
structure AlertRow where
  case_id : Nat
  subject : String
  sent_at : String
deriving DecidableEq, Repr

/-- A tracked-case row as read by the hearing sweep. -/
structure HearingCaseRow where
  id : Nat
  user_id : Nat
  case_title : Option String
  case_number : String
  next_hearing_date : String
  is_active : Bool
deriving DecidableEq, Repr

/-- The alert-log rows `notifyUser` appends for one change: the subject is
the update type with underscores replaced by spaces and uppercased
(telegram), and the case title joined to that label (email). The insert
timestamp is the run time. -/
def notifyUserAlerts (profile : Option Profile) (caseId : Nat) (caseTitle : String)
    (change : ChangeDetected) (now : String) : List AlertRow :=
  match profile with
  | none => []
  | some p =>
    let label := jsToUpper (jsReplaceChar change.updateType '_' ' ')
    (if p.telegram_alerts && truthy p.telegram_chat_id then
      [{ case_id := caseId, subject := label, sent_at := now }]
    else []) ++
    (if p.email_alerts && truthy p.email then
      [{ case_id := caseId, subject := caseTitle ++ " - " ++ label, sent_at := now }]
    else [])

/-- The dedup query of `checkUpcomingHearings`: an alert for this case whose
subject contains "HEARING REMINDER", sent today or later. -/
def hasHearingReminderToday (log : List AlertRow) (cid : Nat) (today : String) : Bool :=
  log.any (fun a =>
    a.case_id == cid && strContainsSub a.subject "HEARING REMINDER"
      && strGE a.sent_at today)

/-- `checkUpcomingHearings` of the script: filter the active cases whose
next hearing falls inside the day window, skip a case when the dedup query
matches the accumulated alert log, and otherwise notify with update type
"listing". Returns the emitted reminders (case id and change) and the grown
alert log. -/
def checkUpcomingHearings (cases : List HearingCaseRow) (log : List AlertRow)
    (profiles : Nat → Option Profile) (today tomorrow now : String) :
    List (Nat × ChangeDetected) × List AlertRow :=
  let upcoming := cases.filter (fun c =>
    strGE c.next_hearing_date today && strGE tomorrow c.next_hearing_date && c.is_active)
  upcoming.foldl
    (fun acc c =>
      if hasHearingReminderToday acc.2 c.id today then acc
      else
        let change : ChangeDetected :=
          { field := "next_hearing_date", updateType := "listing", oldValue := none,
            newValue := "Hearing scheduled for " ++ c.next_hearing_date }
        let title := jsOrS (c.case_title.getD "") c.case_number
        (acc.1 ++ [(c.id, change)],
         acc.2 ++ notifyUserAlerts (profiles c.user_id) c.id title change now))
    ([], log)

/-- The upcoming-hearing sweep of the cron route: every active case inside
the day window is notified with update type "hearing_reminder", with no
dedup query at all. -/
def cronHearingSweep (cases : List HearingCaseRow) (today tomorrow : String) :
    List (Nat × CronChange) :=
  (cases.filter (fun c =>
    c.is_active && strGE c.next_hearing_date today
      && strGE tomorrow c.next_hearing_date)).map
    (fun c => (c.id,
      { type := "hearing_reminder", oldValue := none,
        newValue := "Hearing scheduled for " ++ c.next_hearing_date }))

/-! ## CAPTCHA retry loop (`fetchCaseStatusWithRetry`)

Each loop iteration negotiates one entirely fresh session. The per-attempt
outcome (what the network and upstream produced on that attempt) is supplied
by an oracle indexed by the attempt number. -/

/-- What one attempt of the retry loop runs into. -/
inductive AttemptOutcome
  | negotiationFailed
  | ajaxCaptchaRejected
  | ajaxOtherFailure
  | emptyResults
  | results (cs : Option CaseStatus)
deriving DecidableEq, Repr

/-- The fixed retry bound of the SC scraper. -/
def MAX_CAPTCHA_RETRIES : Nat := 3

/-- The body of the retry loop: `negotiationFailed` (a thrown session or
transport error) retries below the bound and rethrows at it;
`ajaxCaptchaRejected` retries below the bound and returns null at it; any
other ajax failure or an empty results payload returns null; a parse result
is returned. The pair counts the session negotiations performed. The fuel
mirrors the loop bound, and exhausting it is the final `return null`. -/
def fetchCaseStatusWithRetryAux (oracle : Nat → AttemptOutcome) :
    Nat → Nat → Except Unit (Option CaseStatus) × Nat
  | _, 0 => (Except.ok none, 0)
  | attempt, fuel + 1 =>
    match oracle attempt with
    | .negotiationFailed =>
      if attempt < MAX_CAPTCHA_RETRIES then
        let rec' := fetchCaseStatusWithRetryAux oracle (attempt + 1) fuel
        (rec'.1, rec'.2 + 1)
      else (Except.error (), 1)
    | .ajaxCaptchaRejected =>
      if attempt < MAX_CAPTCHA_RETRIES then
        let rec' := fetchCaseStatusWithRetryAux oracle (attempt + 1) fuel
        (rec'.1, rec'.2 + 1)
      else (Except.ok none, 1)
    | .ajaxOtherFailure => (Except.ok none, 1)
    | .emptyResults => (Except.ok none, 1)
    | .results cs => (Except.ok cs, 1)

/-- `fetchCaseStatusWithRetry`: run the loop from attempt 1, returning the
lookup result (`Except.error` models a rethrown final failure) together with
the number of session negotiations performed. -/
def fetchCaseStatusWithRetry (oracle : Nat → AttemptOutcome) :
    Except Unit (Option CaseStatus) × Nat :=
  fetchCaseStatusWithRetryAux oracle 1 MAX_CAPTCHA_RETRIES

/-! ## Provider fallback (`CourtService.getCaseStatus`) -/

/-- The outcomes of the four provider calls the service may make for one
identifier, supplied as oracles; `Except.error` models a thrown provider
error. -/
structure ProviderOracles where
  scStatus : Except Unit (Option CaseStatus)
  ecourtsStatus : Except Unit (Option CaseStatus)
  scCNR : Except Unit (Option CaseStatus)
  ecourtsCNR : Except Unit (Option CaseStatus)

/-- One wrapped provider call: a thrown error is caught and logged, a null
result falls through; only a non-null snapshot is returned. -/
def tryProvider (call : Except Unit (Option CaseStatus)) : Option CaseStatus :=
  match call with
  | Except.ok (some r) => some r
  | _ => none

/-- `CourtService.getCaseStatus`: the SC scraper first for SC identifiers,
then the eCourts scraper, then — when a registry number is present — the
matching CNR lookup; the first non-null result wins and a final null is
returned otherwise. -/
def getCaseStatus (o : ProviderOracles) (id : CaseIdentifier) : Option CaseStatus :=
  let scRes := if id.courtType = CourtType.SC then tryProvider o.scStatus else none
  match scRes with
  | some r => some r
  | none =>
    match tryProvider o.ecourtsStatus with
    | some r => some r
    | none =>
      if truthy id.cnrNumber then
        if id.courtType = CourtType.SC then tryProvider o.scCNR
        else tryProvider o.ecourtsCNR
      else none

/-! ## Sample records for concrete evaluations -/

/-- A canonical snapshot with every field empty. -/
def emptyStatus : CaseStatus :=
  { caseTitle := "", currentStatus := "", petitioner := "", respondent := ""
    petitionerAdvocate := none, respondentAdvocate := none, judges := none
    filingDate := none, registrationDate := none, decisionDate := none
    nextHearingDate := none, lastOrderDate := none, lastOrderSummary := none
    hearingHistory := [], orders := [], acts := none, rawData := none }

/-- A stored case row with every field absent. -/
def emptyRow : CaseRow :=
  { current_status := none, next_hearing_date := none, last_order_date := none
    last_order_summary := none, petitioner := none, respondent := none
    judges := none, raw_data := none, last_checked_at := none, last_changed_at := none }

/-- A raw API record with every field absent. -/
def emptyFresh : FreshRecord :=
  { status := none, case_status := none, next_hearing_date := none, next_date := none
    last_order_date := none, last_order := none, judge := none, bench := none
    petitioner := none, respondent := none, error := none }

/-- An aggregator response with every field absent. -/
def rawEmpty : RawCase :=
  { case_title := none, status := none, case_status := none, petitioner := none
    respondent := none, petitioner_advocate := none, respondent_advocate := none
    judge := none, bench := none, filing_date := none, registration_date := none
    decision_date := none, next_hearing_date := none, next_date := none
    last_order_date := none, last_order := none, history := none, orders := none
    acts := none }

/-- A stored row whose known status is "Pending". -/
def rowPending : CaseRow := { emptyRow with current_status := some "Pending" }

/-- A stored row whose known status is the "Unknown" sentinel. -/
def rowUnknown : CaseRow := { emptyRow with current_status := some "Unknown" }

/-- A fresh snapshot reporting status "Disposed" and nothing else. -/
def csDisposed : CaseStatus := { emptyStatus with currentStatus := "Disposed" }

/-- A fresh snapshot reporting status "Pending" and nothing else. -/
def csPending : CaseStatus := { emptyStatus with currentStatus := "Pending" }

/-- A raw API record reporting status "Pending" and nothing else. -/
def freshPending : FreshRecord := { emptyFresh with status := some "Pending" }

/-- A fresh snapshot with a last order date and a summary. -/
def csOrderSummary : CaseStatus :=
  { emptyStatus with
    lastOrderDate := some "2024-01-01"
    lastOrderSummary := some "Order sheet" }

/-- A fresh snapshot with a last order date and no summary. -/
def csOrderBare : CaseStatus := { emptyStatus with lastOrderDate := some "2024-01-01" }

/-- A raw API record with a last order date and no summary text. -/
def freshOrderBare : FreshRecord := { emptyFresh with last_order_date := some "2024-01-01" }

/-- A stored row carrying an old last-checked timestamp. -/
def rowStale : CaseRow := { emptyRow with last_checked_at := some "2025-05-01T00:00:00Z" }

/-- A profile with only telegram alerts enabled. -/
def hearingProfile : Profile :=
  { email := none, telegram_chat_id := some "chat-1", email_alerts := false,
    telegram_alerts := true }

/-- An active case whose next hearing is within the day window. -/
def hearingCase : HearingCaseRow :=
  { id := 1, user_id := 7, case_title := some "A vs B", case_number := "123",
    next_hearing_date := "2025-01-02", is_active := true }

/-- A profile table mapping every user to the telegram-only profile. -/
def profilesFn : Nat → Option Profile := fun _ => some hearingProfile

/-- A sample resolved snapshot returned by a fallback provider. -/
def cs1 : CaseStatus :=
  { emptyStatus with
    caseTitle := "State vs Accused"
    currentStatus := "Pending" }

/-- A Supreme Court case identifier without a registry number. -/
def idSC : CaseIdentifier :=
  { courtType := CourtType.SC, caseType := "C.A.", caseTypeCode := none,
    caseNumber := "1234", caseYear := "2024", cnrNumber := none,
    courtCode := none, stateCode := none, districtCode := none }

/-! ## Helper characterizations of the two detectors -/

/-- The cron detector output written as the concatenation of its three
independent rules. -/
theorem detectChangesCron_eq (row : CaseRow) (ns : CaseStatus) :
    detectChangesCron row ns =
      (if ns.currentStatus != "" && some ns.currentStatus != row.current_status
          && row.current_status != some "Unknown" then
        [{ type := "status_change", oldValue := row.current_status,
           newValue := ns.currentStatus }]
      else []) ++
      (if truthy ns.nextHearingDate && ns.nextHearingDate != row.next_hearing_date then
        [{ type := "hearing_date_change", oldValue := row.next_hearing_date,
           newValue := ns.nextHearingDate.getD "" }]
      else []) ++
      (if truthy ns.lastOrderDate && ns.lastOrderDate != row.last_order_date then
        [{ type := "new_order", oldValue := row.last_order_date,
           newValue := ns.lastOrderDate.getD "" ++
             (if truthy ns.lastOrderSummary then " - " ++ ns.lastOrderSummary.getD ""
              else "") }]
      else []) := by
  unfold detectChangesCron
  cases h1 : (ns.currentStatus != "" && some ns.currentStatus != row.current_status
      && row.current_status != some "Unknown") <;>
    cases h2 : (truthy ns.nextHearingDate
        && ns.nextHearingDate != row.next_hearing_date) <;>
      cases h3 : (truthy ns.lastOrderDate
          && ns.lastOrderDate != row.last_order_date) <;>
        simp [h1, h2, h3]

/-- The script detector output written as the concatenation of its four
independent rules. -/
theorem detectChanges_eq (tracked : CaseRow) (fresh : FreshRecord) :
    detectChanges tracked fresh =
      (if truthy (jsOr fresh.status fresh.case_status)
          && jsOr fresh.status fresh.case_status != tracked.current_status then
        [{ field := "current_status", updateType := "status_change",
           oldValue := tracked.current_status,
           newValue := (jsOr fresh.status fresh.case_status).getD "" }]
      else []) ++
      (if truthy (jsOr fresh.next_hearing_date fresh.next_date)
          && jsOr fresh.next_hearing_date fresh.next_date != tracked.next_hearing_date then
        [{ field := "next_hearing_date", updateType := "hearing_date_change",
           oldValue := tracked.next_hearing_date,
           newValue := (jsOr fresh.next_hearing_date fresh.next_date).getD "" }]
      else []) ++
      (if truthy fresh.last_order_date
          && fresh.last_order_date != tracked.last_order_date then
        [{ field := "last_order_date", updateType := "new_order",
           oldValue := tracked.last_order_date,
           newValue := "New order on " ++ fresh.last_order_date.getD "" ++ ": " ++
             fresh.last_order.getD "" }]
      else []) ++
      (if truthy (jsOr fresh.judge fresh.bench)
          && jsOr fresh.judge fresh.bench != tracked.judges then
        [{ field := "judges", updateType := "judge_change",
           oldValue := tracked.judges,
           newValue := (jsOr fresh.judge fresh.bench).getD "" }]
      else []) := by
  unfold detectChanges
  cases h1 : (truthy (jsOr fresh.status fresh.case_status)
      && jsOr fresh.status fresh.case_status != tracked.current_status) <;>
    cases h2 : (truthy (jsOr fresh.next_hearing_date fresh.next_date)
        && jsOr fresh.next_hearing_date fresh.next_date != tracked.next_hearing_date) <;>
      cases h3 : (truthy fresh.last_order_date
          && fresh.last_order_date != tracked.last_order_date) <;>
        cases h4 : (truthy (jsOr fresh.judge fresh.bench)
            && jsOr fresh.judge fresh.bench != tracked.judges) <;>
          simp [h1, h2, h3, h4]

/-! ## Claim theorems -/

/-- C1: Supreme Court case-type resolution evaluated at the inputs of the
claim. The inputs "CA", "C.A." and "ca" all resolve to registry code "3",
and the unrecognized "Frobnicate Petition" resolves to the default code "5"
without failing; but "Civil Appeal" also falls through to the default "5"
although the alias table itself maps "CIVIL APPEAL" to "3" — the alias
lookup key has its spaces stripped, so the multi-word alias entries can
never match. -/
theorem C1_case_type_alias_resolution :
    resolveCaseTypeCode "Civil Appeal" none = "5" ∧
    resolveCaseTypeCode "CA" none = "3" ∧
    resolveCaseTypeCode "C.A." none = "3" ∧
    resolveCaseTypeCode "ca" none = "3" ∧
    resolveCaseTypeCode "Frobnicate Petition" none = "5" ∧
    lookupStr SC_ALIASES "CIVIL APPEAL" = some "3" ∧
    stripPunctSpace (jsTrim (jsToUpper "Civil Appeal")) = "CIVILAPPEAL" ∧
    lookupStr SC_ALIASES "CIVILAPPEAL" = none := by
  decide

/-- C2 counterexample: the standalone script detector has no "Unknown"
sentinel check, so previous status "Unknown" with fresh status "Pending"
yields one status_change event where the claim demands zero. -/
theorem C2_counterexample :
    scriptEventsOfType "status_change" (detectChanges rowUnknown freshPending) =
      [{ field := "current_status", updateType := "status_change",
         oldValue := some "Unknown", newValue := "Pending" }] ∧
    (scriptEventsOfType "status_change" (detectChanges rowUnknown freshPending)).length
      ≠ 0 := by
  decide

/-- C2 (amended): the cron-route detector emits a status_change event exactly
when the fresh status is non-empty, differs from the previous status, and the
previous status is not the "Unknown" sentinel — so previous "Unknown" with
fresh "Pending" yields zero events there, and previous "Pending" with fresh
"Disposed" yields exactly one event with oldValue "Pending" and newValue
"Disposed"; the script detector omits the sentinel check and emits exactly
when the fresh status is non-empty and differs from the previous one. -/
theorem C2_status_change_rule :
    (∀ (row : CaseRow) (ns : CaseStatus),
      cronEventsOfType "status_change" (detectChangesCron row ns) =
        if ns.currentStatus != "" && some ns.currentStatus != row.current_status
            && row.current_status != some "Unknown" then
          [{ type := "status_change", oldValue := row.current_status,
             newValue := ns.currentStatus }]
        else []) ∧
    (∀ (tracked : CaseRow) (fresh : FreshRecord),
      scriptEventsOfType "status_change" (detectChanges tracked fresh) =
        if truthy (jsOr fresh.status fresh.case_status)
            && jsOr fresh.status fresh.case_status != tracked.current_status then
          [{ field := "current_status", updateType := "status_change",
             oldValue := tracked.current_status,
             newValue := (jsOr fresh.status fresh.case_status).getD "" }]
        else []) ∧
    detectChangesCron rowUnknown csPending = [] ∧
    detectChangesCron rowPending csDisposed =
      [{ type := "status_change", oldValue := some "Pending",
         newValue := "Disposed" }] := by
  refine ⟨?_, ?_, by decide, by decide⟩
  · intro row ns
    rw [detectChangesCron_eq]
    cases h1 : (ns.currentStatus != "" && some ns.currentStatus != row.current_status
        && row.current_status != some "Unknown") <;>
      cases h2 : (truthy ns.nextHearingDate
          && ns.nextHearingDate != row.next_hearing_date) <;>
        cases h3 : (truthy ns.lastOrderDate
            && ns.lastOrderDate != row.last_order_date) <;>
          simp [cronEventsOfType, h1, h2, h3]
  · intro tracked fresh
    rw [detectChanges_eq]
    cases h1 : (truthy (jsOr fresh.status fresh.case_status)
        && jsOr fresh.status fresh.case_status != tracked.current_status) <;>
      cases h2 : (truthy (jsOr fresh.next_hearing_date fresh.next_date)
          && jsOr fresh.next_hearing_date fresh.next_date != tracked.next_hearing_date) <;>
        cases h3 : (truthy fresh.last_order_date
            && fresh.last_order_date != tracked.last_order_date) <;>
          cases h4 : (truthy (jsOr fresh.judge fresh.bench)
              && jsOr fresh.judge fresh.bench != tracked.judges) <;>
            simp [scriptEventsOfType, h1, h2, h3, h4]

/-- C3 counterexample: with last-order date "2024-01-01" and summary
"Order sheet", the cron-route detector formats the new value as
"2024-01-01 - Order sheet", not as "2024-01-01: Order sheet" demanded by the
claim. -/
theorem C3_counterexample :
    cronEventsOfType "new_order" (detectChangesCron emptyRow csOrderSummary) =
      [{ type := "new_order", oldValue := none,
         newValue := "2024-01-01 - Order sheet" }] ∧
    "2024-01-01 - Order sheet" ≠ "2024-01-01: Order sheet" := by
  decide

/-- C3 (amended): when the fresh last-order date is non-empty and differs
from the previous one, the cron-route detector emits a new_order event whose
new value is "date - summary" when a summary is present and exactly the date
otherwise, and the script detector emits one whose new value is always
"New order on date: summary" with an empty summary slot when none is
present. -/
theorem C3_new_order_value :
    (∀ (row : CaseRow) (ns : CaseStatus),
      cronEventsOfType "new_order" (detectChangesCron row ns) =
        if truthy ns.lastOrderDate && ns.lastOrderDate != row.last_order_date then
          [{ type := "new_order", oldValue := row.last_order_date,
             newValue := ns.lastOrderDate.getD "" ++
               (if truthy ns.lastOrderSummary then " - " ++ ns.lastOrderSummary.getD ""
                else "") }]
        else []) ∧
    (∀ (tracked : CaseRow) (fresh : FreshRecord),
      scriptEventsOfType "new_order" (detectChanges tracked fresh) =
        if truthy fresh.last_order_date
            && fresh.last_order_date != tracked.last_order_date then
          [{ field := "last_order_date", updateType := "new_order",
             oldValue := tracked.last_order_date,
             newValue := "New order on " ++ fresh.last_order_date.getD "" ++ ": " ++
               fresh.last_order.getD "" }]
        else []) ∧
    cronEventsOfType "new_order" (detectChangesCron emptyRow csOrderBare) =
      [{ type := "new_order", oldValue := none, newValue := "2024-01-01" }] ∧
    scriptEventsOfType "new_order" (detectChanges emptyRow freshOrderBare) =
      [{ field := "last_order_date", updateType := "new_order", oldValue := none,
         newValue := "New order on 2024-01-01: " }] := by
  refine ⟨?_, ?_, by decide, by decide⟩
  · intro row ns
    rw [detectChangesCron_eq]
    cases h1 : (ns.currentStatus != "" && some ns.currentStatus != row.current_status
        && row.current_status != some "Unknown") <;>
      cases h2 : (truthy ns.nextHearingDate
          && ns.nextHearingDate != row.next_hearing_date) <;>
        cases h3 : (truthy ns.lastOrderDate
            && ns.lastOrderDate != row.last_order_date) <;>
          simp [cronEventsOfType, h1, h2, h3]
  · intro tracked fresh
    rw [detectChanges_eq]
    cases h1 : (truthy (jsOr fresh.status fresh.case_status)
        && jsOr fresh.status fresh.case_status != tracked.current_status) <;>
      cases h2 : (truthy (jsOr fresh.next_hearing_date fresh.next_date)
          && jsOr fresh.next_hearing_date fresh.next_date != tracked.next_hearing_date) <;>
        cases h3 : (truthy fresh.last_order_date
            && fresh.last_order_date != tracked.last_order_date) <;>
          cases h4 : (truthy (jsOr fresh.judge fresh.bench)
              && jsOr fresh.judge fresh.bench != tracked.judges) <;>
            simp [scriptEventsOfType, h1, h2, h3, h4]

/-- C4: the daily dedup gate of the hearing-reminder sweep is defeated by a
subject mismatch. A first run emits one reminder and logs it with subject
"LISTING" (update type "listing"); a second run the same day — against that
very log — emits a second reminder for the same case, because the dedup query
matches subjects containing "HEARING REMINDER", a string the code never
writes (a log row carrying that subject would suppress the reminder, as
the gate intends). The cron-route sweep performs no dedup query at all. -/
theorem C4_hearing_reminder_dedup_defeated :
    (checkUpcomingHearings [hearingCase] [] profilesFn "2025-01-01" "2025-01-02"
        "2025-01-01T08:00:00Z").1.length = 1 ∧
    (checkUpcomingHearings [hearingCase] [] profilesFn "2025-01-01" "2025-01-02"
        "2025-01-01T08:00:00Z").2 =
      [{ case_id := 1, subject := "LISTING", sent_at := "2025-01-01T08:00:00Z" }] ∧
    (checkUpcomingHearings [hearingCase]
        [{ case_id := 1, subject := "LISTING", sent_at := "2025-01-01T08:00:00Z" }]
        profilesFn "2025-01-01" "2025-01-02" "2025-01-01T12:00:00Z").1.length = 1 ∧
    (checkUpcomingHearings [hearingCase]
        [{ case_id := 1, subject := "HEARING REMINDER", sent_at := "2025-01-01T08:00:00Z" }]
        profilesFn "2025-01-01" "2025-01-02" "2025-01-01T12:00:00Z").1.length = 0 ∧
    strContainsSub "LISTING" "HEARING REMINDER" = false ∧
    (cronHearingSweep [hearingCase] "2025-01-01" "2025-01-02").length = 1 := by
  decide

/-- C5 counterexample: in the standalone script, a null resolution leaves the
stored row — its last-checked timestamp included — entirely unchanged, where
the claim demands the timestamp be advanced. -/
theorem C5_counterexample :
    (scriptProcessCase rowStale ScriptFetchOutcome.nullResp
        "2025-06-01T00:00:00Z").1 = rowStale ∧
    rowStale.last_checked_at = some "2025-05-01T00:00:00Z" ∧
    (scriptProcessCase rowStale ScriptFetchOutcome.nullResp
        "2025-06-01T00:00:00Z").1.last_checked_at ≠ some "2025-06-01T00:00:00Z" := by
  decide

/-- C5 (amended): in the cron route a null resolution advances the last-checked
timestamp and changes nothing else, emits no change events, counts toward
casesChecked (not toward the error counter) and the batch continues with the
remaining cases; in the standalone script a null response increments the error
counter and the loop continues, but the stored row — its last-checked
timestamp included — is left untouched. -/
theorem C5_null_resolution_handling :
    (∀ (row : CaseRow) (now : String),
      cronProcessCase row none now = ({ row with last_checked_at := some now }, [])) ∧
    (∀ (row : CaseRow) (rest : List (CaseRow × Option CaseStatus)) (now : String),
      runCronBatch ((row, none) :: rest) now =
        (({ row with last_checked_at := some now }, []) :: (runCronBatch rest now).1,
         { casesChecked := (runCronBatch rest now).2.casesChecked + 1,
           updatesFound := (runCronBatch rest now).2.updatesFound,
           errorCount := (runCronBatch rest now).2.errorCount })) ∧
    (∀ (row : CaseRow) (now : String),
      scriptProcessCase row ScriptFetchOutcome.nullResp now =
        (row, [], { updated := 0, errors := 1 })) ∧
    (∀ (row : CaseRow) (rest : List (CaseRow × ScriptFetchOutcome)) (now : String),
      runScriptBatch ((row, ScriptFetchOutcome.nullResp) :: rest) now =
        ((row, []) :: (runScriptBatch rest now).1,
         { updated := (runScriptBatch rest now).2.updated,
           errors := (runScriptBatch rest now).2.errors + 1 })) := by
  refine ⟨fun row now => rfl, fun row rest now => ?_, fun row now => rfl,
    fun row rest now => ?_⟩
  · simp [runCronBatch, cronProcessCase]
  · simp [runScriptBatch, scriptProcessCase]

/-- C6 counterexample: the aggregator-API normalizer defaults the
current-status of a response carrying no status value to the literal
"Unknown", not to "Pending". -/
theorem C6_counterexample :
    (normalizeCase rawEmpty).currentStatus = "Unknown" ∧
    (normalizeCase rawEmpty).currentStatus ≠ "Pending" := by
  decide

/-- C6 (amended): when the upstream supplies no status value, the SC HTML
parse and the eCourts HTML parse default the current-status to the literal
"Pending", while the aggregator-API normalizer defaults it to the literal
"Unknown". -/
theorem C6_default_status :
    (∀ (r : RawCase), r.status.getD "" = "" → r.case_status.getD "" = "" →
      (normalizeCase r).currentStatus = "Unknown") ∧
    (∀ (ef : String → String) (cells : List String),
      ef "Status" = "" → ef "Case Status" = "" → ef "Disposal Nature" = "" →
      cells.getD 5 "" = "" →
      scParsedCurrentStatus ef cells = "Pending") ∧
    (∀ (ef : String → String),
      ef "Case Status" = "" → ef "Status" = "" → ef "Stage of Case" = "" →
      ecourtsParsedCurrentStatus ef = "Pending") := by
  refine ⟨?_, ?_, ?_⟩ <;> intros <;>
    simp_all [normalizeCase, scParsedCurrentStatus, ecourtsParsedCurrentStatus, jsOrS]

/-- C6 witness: the defaults evaluated at concrete inputs with no status
value anywhere. -/
theorem C6_witness :
    (normalizeCase rawEmpty).currentStatus = "Unknown" ∧
    scParsedCurrentStatus (fun _ => "") [] = "Pending" ∧
    ecourtsParsedCurrentStatus (fun _ => "") = "Pending" :=
  ⟨C6_default_status.1 rawEmpty rfl rfl,
   C6_default_status.2.1 (fun _ => "") [] rfl rfl rfl rfl,
   C6_default_status.2.2 (fun _ => "") rfl rfl rfl⟩

/-- C7: when every negotiated session is CAPTCHA-rejected by the upstream,
the lookup performs exactly 3 session negotiations and returns null — not a
thrown error, and never a fourth attempt. -/
theorem C7_captcha_retry_bound (oracle : Nat → AttemptOutcome)
    (h : ∀ n, oracle n = AttemptOutcome.ajaxCaptchaRejected) :
    fetchCaseStatusWithRetry oracle = (Except.ok none, 3) := by
  simp [fetchCaseStatusWithRetry, fetchCaseStatusWithRetryAux, MAX_CAPTCHA_RETRIES, h]

/-- C7 witness: the bound evaluated on the constant CAPTCHA-rejected oracle. -/
theorem C7_witness :
    fetchCaseStatusWithRetry (fun _ => AttemptOutcome.ajaxCaptchaRejected)
      = (Except.ok none, 3) :=
  C7_captcha_retry_bound (fun _ => AttemptOutcome.ajaxCaptchaRejected) (fun _ => rfl)

/-- C8: when the primary provider throws and a later provider in the fallback
order returns a non-null snapshot, the service returns that snapshot and the
thrown error is not propagated (the return type carries no error); and the
first non-null result in the fallback order is the one returned. -/
theorem C8_provider_fallback :
    (∀ (o : ProviderOracles) (id : CaseIdentifier) (r : CaseStatus),
      id.courtType = CourtType.SC → o.scStatus = Except.error () →
      o.ecourtsStatus = Except.ok (some r) → getCaseStatus o id = some r) ∧
    (∀ (o : ProviderOracles) (id : CaseIdentifier) (r : CaseStatus),
      id.courtType ≠ CourtType.SC → o.ecourtsStatus = Except.error () →
      truthy id.cnrNumber = true → o.ecourtsCNR = Except.ok (some r) →
      getCaseStatus o id = some r) ∧
    (∀ (o : ProviderOracles) (id : CaseIdentifier) (r : CaseStatus),
      id.courtType = CourtType.SC → o.scStatus = Except.ok (some r) →
      getCaseStatus o id = some r) := by
  refine ⟨?_, ?_, ?_⟩ <;> intro o id r <;> intros <;>
    simp [getCaseStatus, tryProvider, *]

/-- C8 witness: the SC provider throws, the eCourts provider resolves, and
the service returns the eCourts snapshot. -/
theorem C8_witness :
    getCaseStatus
      { scStatus := Except.error (), ecourtsStatus := Except.ok (some cs1),
        scCNR := Except.ok none, ecourtsCNR := Except.ok none } idSC = some cs1 :=
  C8_provider_fallback.1
    { scStatus := Except.error (), ecourtsStatus := Except.ok (some cs1),
      scCNR := Except.ok none, ecourtsCNR := Except.ok none } idSC cs1 rfl rfl rfl

/-- C9: when every comparable field of the fresh snapshot equals the
corresponding stored field, both change detectors return the empty list. -/
theorem C9_noop_cycle_empty :
    (∀ (tracked : CaseRow) (fresh : FreshRecord),
      jsOr fresh.status fresh.case_status = tracked.current_status →
      jsOr fresh.next_hearing_date fresh.next_date = tracked.next_hearing_date →
      fresh.last_order_date = tracked.last_order_date →
      jsOr fresh.judge fresh.bench = tracked.judges →
      detectChanges tracked fresh = []) ∧
    (∀ (row : CaseRow) (ns : CaseStatus),
      row.current_status = some ns.currentStatus →
      ns.nextHearingDate = row.next_hearing_date →
      ns.lastOrderDate = row.last_order_date →
      detectChangesCron row ns = []) := by
  constructor
  · intro tracked fresh h1 h2 h3 h4
    rw [detectChanges_eq]
    simp [h1, h2, h3, h4]
  · intro row ns h1 h2 h3
    rw [detectChangesCron_eq]
    simp [h1, h2, h3]

/-- C9 witness: the no-op cycle evaluated at concrete matching records. -/
theorem C9_witness :
    detectChanges emptyRow emptyFresh = [] ∧
    detectChangesCron rowPending csPending = [] :=
  ⟨C9_noop_cycle_empty.1 emptyRow emptyFresh (by decide) (by decide) (by decide)
      (by decide),
   C9_noop_cycle_empty.2 rowPending csPending (by decide) (by decide) (by decide)⟩

end Mercury
